import Mathlib

/-!
Verification development for the line-segment collider core (ColliderLine.c).

The moving circular body's geometry is embedded over the real numbers: the
C float pair Vector2D becomes a pair of reals, and the Vector2D primitives
(which are declared but whose implementation file is not part of this
repository snapshot) are modelled from the spec's description of the
geometry library (subtraction, dot product, normalization, scaling, angle
conversion).  Note that in Lean real division by zero yields 0, so the
zero vector normalizes to the zero vector; the IEEE-float behaviour at
that point (0/0 = NaN, comparisons with NaN are false) is modelled
separately in namespace FP for the degenerate-segment analysis.
-/

set_option maxHeartbeats 1000000
set_option linter.unusedVariables false

noncomputable section

/-- A 2D vector with real components, embedding the float pair Vector2D. -/
structure Vector2D where
  x : ℝ
  y : ℝ

/-- Convenience constructor for concrete vectors. -/
def V (x y : ℝ) : Vector2D := ⟨x, y⟩

/-- Modelled from the spec: componentwise vector subtraction (Vector2DSub). -/
def Vector2DSub (a b : Vector2D) : Vector2D := ⟨a.x - b.x, a.y - b.y⟩

/-- Modelled from the spec: componentwise vector addition (Vector2DAdd). -/
def Vector2DAdd (a b : Vector2D) : Vector2D := ⟨a.x + b.x, a.y + b.y⟩

/-- Modelled from the spec: scaling a vector by a scalar (Vector2DScale). -/
def Vector2DScale (v : Vector2D) (c : ℝ) : Vector2D := ⟨v.x * c, v.y * c⟩

/-- Modelled from the spec: the 2D dot product (Vector2DDotProduct). -/
def Vector2DDotProduct (a b : Vector2D) : ℝ := a.x * b.x + a.y * b.y

/-- Modelled from the spec: Euclidean length of a vector (Vector2DLength). -/
def Vector2DLength (v : Vector2D) : ℝ := Real.sqrt (v.x * v.x + v.y * v.y)

/-- Modelled from the spec: normalization, dividing a vector by its length
(Vector2DNormalize).  In Lean division by zero yields 0, so the zero vector
maps to the zero vector here; IEEE floats would give NaN components. -/
def Vector2DNormalize (v : Vector2D) : Vector2D :=
  ⟨v.x / Vector2DLength v, v.y / Vector2DLength v⟩

/-- Modelled from the spec: scale-then-add, with the argument order of the C
call site Vector2DScaleAdd(&Bi, &v, &Bs, ti), giving Bi = Bs + v*ti. -/
def Vector2DScaleAdd (v a : Vector2D) (t : ℝ) : Vector2D :=
  Vector2DAdd (Vector2DScale v t) a

/-- Modelled from the spec: atan2-equivalent angle of a vector
(Vector2DToAngleRad), taken as the complex argument of x + y*I. -/
def Vector2DToAngleRad (v : Vector2D) : ℝ := Complex.arg ⟨v.x, v.y⟩

/-- Collider type tags, from Collider.h as used by ColliderLine.c. -/
inductive ColliderType where
  | ColliderTypeNone : ColliderType
  | ColliderTypeLine : ColliderType
  | ColliderTypeCircle : ColliderType
deriving DecidableEq

/-- A single line segment, the pair point[0], point[1] of ColliderLineSegment. -/
structure ColliderLineSegment where
  point0 : Vector2D
  point1 : Vector2D

/-- cLineSegmentMax, the fixed capacity of the segment array. -/
def cLineSegmentMax : ℕ := 50

/-- The ColliderLine struct: a base collider type tag, the segment count and
the segment list.  The C fixed array of cLineSegmentMax entries is embedded
as a list; the C code writes lineSegments[lineCount] with no bounds check,
which for lineCount below the capacity is exactly an append. -/
structure ColliderLine where
  baseType : ColliderType
  lineCount : ℕ
  lineSegments : List ColliderLineSegment

/-- The mutable state of the moving circular body that ColliderLine.c reads
and writes: transform translation (pos), transform rotation (rot), the
physics old translation (oldPos) and the physics velocity (vel). -/
structure Body where
  pos : Vector2D
  rot : ℝ
  oldPos : Vector2D
  vel : Vector2D

/-- The circle collider argument: its type tag and the body state of its
parent game object. -/
structure Collider where
  ctype : ColliderType
  parent : Body

/-- The left-hand perpendicular of the segment direction, normalized:
lines 165-169 of ColliderLine.c (e = P1 - P0, n = normalize (e.y, -e.x)). -/
def normalDir (P0 P1 : Vector2D) : Vector2D :=
  Vector2DNormalize ⟨(Vector2DSub P1 P0).y, -(Vector2DSub P1 P0).x⟩

/-- The crossing time ti of lines 192-193:
ti = (dot(n,P0) - dot(n,Bs)) / dot(n,v). -/
def crossTime (P0 P1 Bs Be : Vector2D) : ℝ :=
  (Vector2DDotProduct (normalDir P0 P1) P0
    - Vector2DDotProduct (normalDir P0 P1) Bs)
    / Vector2DDotProduct (normalDir P0 P1) (Vector2DSub Be Bs)

/-- The crossing point Bi of lines 197-198: Bi = Bs + v*ti. -/
def crossPoint (P0 P1 Bs Be : Vector2D) : Vector2D :=
  Vector2DScaleAdd (Vector2DSub Be Bs) Bs (crossTime P0 P1 Bs Be)

/-- The pair of side-of-line skip guards of lines 179-188: the per-segment
test continues to the next segment when either guard holds. -/
def sideSkip (n P0 Bs Be : Vector2D) : Prop :=
  (Vector2DDotProduct n Bs ≤ Vector2DDotProduct n P0
    ∧ Vector2DDotProduct n Be < Vector2DDotProduct n P0)
  ∨ (Vector2DDotProduct n Bs ≥ Vector2DDotProduct n P0
    ∧ Vector2DDotProduct n Be > Vector2DDotProduct n P0)

/-- The per-segment swept test of lines 160-210 of ColliderLine.c for one
segment (P0, P1) against the motion from Bs to Be: the parallel check, the
two side-of-line guards, the crossing time and point, and the two finite
segment bound checks.  Evaluates to some (ti, Bi, n) exactly when the
segment registers a crossing. -/
def segTest (P0 P1 Bs Be : Vector2D) : Option (ℝ × Vector2D × Vector2D) :=
  if Vector2DDotProduct (normalDir P0 P1) (Vector2DSub Be Bs) = 0 then none
  else if Vector2DDotProduct (normalDir P0 P1) Bs ≤ Vector2DDotProduct (normalDir P0 P1) P0
      ∧ Vector2DDotProduct (normalDir P0 P1) Be < Vector2DDotProduct (normalDir P0 P1) P0 then none
  else if Vector2DDotProduct (normalDir P0 P1) Bs ≥ Vector2DDotProduct (normalDir P0 P1) P0
      ∧ Vector2DDotProduct (normalDir P0 P1) Be > Vector2DDotProduct (normalDir P0 P1) P0 then none
  else if Vector2DDotProduct (Vector2DSub P1 P0)
      (Vector2DSub (crossPoint P0 P1 Bs Be) P0) < 0 then none
  else if Vector2DDotProduct (Vector2DSub P0 P1)
      (Vector2DSub (crossPoint P0 P1 Bs Be) P1) < 0 then none
  else some (crossTime P0 P1 Bs Be, crossPoint P0 P1 Bs Be, normalDir P0 P1)

/-- The specular reflection of lines 213-217: r = i - 2*n*dot(i, n). -/
def reflect (i n : Vector2D) : Vector2D :=
  Vector2DSub i (Vector2DScale (Vector2DScale n (Vector2DDotProduct i n)) 2)

/-- The resolution of lines 213-231 applied to the body: position Bi + r,
rotation the angle of r, velocity normalize(r) scaled by the length of the
velocity currently stored in the physics state. -/
def resolveBody (Be Bi n : Vector2D) (body : Body) : Body :=
  let i := Vector2DSub Be Bi
  let r := reflect i n
  { body with
    pos := Vector2DAdd Bi r
    rot := Vector2DToAngleRad r
    vel := Vector2DScale (Vector2DNormalize r) (Vector2DLength body.vel) }

/-- One iteration of the loop of lines 157-235: test the segment against the
motion captured before the loop (Bs, Be) and, when it registers, resolve. -/
def segStep (Bs Be : Vector2D) (body : Body) (seg : ColliderLineSegment) : Body :=
  match segTest seg.point0 seg.point1 Bs Be with
  | none => body
  | some (_, Bi, n) => resolveBody Be Bi n body

/-- The full loop over the segments in order. -/
def runSegments (Bs Be : Vector2D) (segs : List ColliderLineSegment) (body : Body) : Body :=
  segs.foldl (segStep Bs Be) body

/-- ColliderLineIsCollidingWithCircle, lines 138-241: under the type-tag
guard, captures Bs (the physics old translation) and Be (the transform
translation) once, iterates the per-segment test over the first lineCount
stored segments resolving on every registered crossing, and returns false
(line 240) unconditionally, together with the final body state. -/
def ColliderLineIsCollidingWithCircle (collider : ColliderLine) (other : Collider) :
    Bool × Body :=
  if collider.baseType = ColliderType.ColliderTypeLine
      ∧ other.ctype = ColliderType.ColliderTypeCircle then
    (false, runSegments other.parent.oldPos other.parent.pos
      (collider.lineSegments.take collider.lineCount) other.parent)
  else
    (false, other.parent)

/-- ColliderLineAddLineSegment, lines 114-126: when all three pointers are
non-null the segment is written at index lineCount and the count is
incremented, with no capacity check against cLineSegmentMax (for a full
store the C code writes out of bounds; the embedding records the append
itself).  When any pointer is null nothing happens and nothing is
reported (the C function returns void). -/
def ColliderLineAddLineSegment (collider : Option ColliderLine)
    (p0 p1 : Option Vector2D) : Option ColliderLine :=
  match collider, p0, p1 with
  | some c, some a, some b =>
      some { c with
        lineCount := c.lineCount + 1
        lineSegments := c.lineSegments ++ [⟨a, b⟩] }
  | _, _, _ => collider

/-- A line collider holding no segments. -/
def emptyStore : ColliderLine := ⟨ColliderType.ColliderTypeLine, 0, []⟩

/-- A sample stored segment. -/
def demoSegment : ColliderLineSegment := ⟨V 0 0, V 1 0⟩

/-- A line collider filled to the capacity cLineSegmentMax. -/
def fullStore : ColliderLine :=
  ⟨ColliderType.ColliderTypeLine, cLineSegmentMax,
    List.replicate cLineSegmentMax demoSegment⟩

/-- The horizontal segment from (-1,0) to (1,0). -/
def demoSeg2 : ColliderLineSegment := ⟨V (-1) 0, V 1 0⟩

/-- A circular body moving upward from (0,-1) to (0,1) with velocity (0,2). -/
def demoBody : Body := ⟨V 0 1, 0, V 0 (-1), V 0 2⟩

/-- The horizontal segment from (-2,1/2) to (2,1/2), also crossed by the
motion of demoBody. -/
def demoSegB : ColliderLineSegment := ⟨V (-2) (1 / 2), V 2 (1 / 2)⟩

/-- A line collider whose two stored segments are both crossed by the motion
of demoBody within one tick. -/
def demoCollider : ColliderLine :=
  ⟨ColliderType.ColliderTypeLine, 2, [demoSeg2, demoSegB]⟩

/-- The circle-collider view of demoBody. -/
def demoOther : Collider := ⟨ColliderType.ColliderTypeCircle, demoBody⟩

/-- An IEEE-style scalar for the degenerate-segment analysis: some x is an
ordinary value, none is NaN.  Arithmetic propagates NaN and every ordered
comparison involving NaN is false, as in IEEE 754.  Division by zero arises
in the analysed path only with a zero numerator (0/0), which IEEE maps to
NaN; fdiv maps every division by zero to NaN, which is faithful there. -/
def FP : Type := Option ℝ

namespace FP

/-- NaN-propagating addition. -/
def fadd (a b : FP) : FP := a.bind fun x => b.map fun y => x + y

/-- NaN-propagating subtraction. -/
def fsub (a b : FP) : FP := a.bind fun x => b.map fun y => x - y

/-- NaN-propagating multiplication. -/
def fmul (a b : FP) : FP := a.bind fun x => b.map fun y => x * y

/-- NaN-propagating negation. -/
def fneg (a : FP) : FP := a.map fun x => -x

/-- Division: NaN operands and zero divisors yield NaN. -/
def fdiv (a b : FP) : FP :=
  a.bind fun x => b.bind fun y => if y = 0 then none else some (x / y)

/-- Square root: NaN for NaN or negative arguments. -/
def fsqrt (a : FP) : FP := a.bind fun x => if x < 0 then none else some (Real.sqrt x)

/-- Equality test: false whenever an operand is NaN. -/
def feqb (a b : FP) : Bool :=
  match a, b with
  | some x, some y => decide (x = y)
  | _, _ => false

/-- Less-than test: false whenever an operand is NaN. -/
def fltb (a b : FP) : Bool :=
  match a, b with
  | some x, some y => decide (x < y)
  | _, _ => false

/-- Less-or-equal test: false whenever an operand is NaN. -/
def fleb (a b : FP) : Bool :=
  match a, b with
  | some x, some y => decide (x ≤ y)
  | _, _ => false

/-- A 2D vector of IEEE-style scalars. -/
structure FVec where
  x : FP
  y : FP

/-- A concrete finite vector. -/
def fv (a b : ℝ) : FVec := ⟨some a, some b⟩

/-- Componentwise subtraction. -/
def fsubv (a b : FVec) : FVec := ⟨fsub a.x b.x, fsub a.y b.y⟩

/-- Componentwise addition. -/
def faddv (a b : FVec) : FVec := ⟨fadd a.x b.x, fadd a.y b.y⟩

/-- Scaling by a scalar. -/
def fscale (v : FVec) (c : FP) : FVec := ⟨fmul v.x c, fmul v.y c⟩

/-- Dot product. -/
def fdot (a b : FVec) : FP := fadd (fmul a.x b.x) (fmul a.y b.y)

/-- Euclidean length. -/
def flength (v : FVec) : FP := fsqrt (fadd (fmul v.x v.x) (fmul v.y v.y))

/-- Normalization; for the zero vector both components become 0/0 = NaN. -/
def fnormalize (v : FVec) : FVec := ⟨fdiv v.x (flength v), fdiv v.y (flength v)⟩

/-- The atan2-style angle; NaN on NaN components. -/
def fangle (v : FVec) : FP :=
  match v.x, v.y with
  | some x, some y => some (Complex.arg ⟨x, y⟩)
  | _, _ => none

/-- The segment normal of lines 165-169 under IEEE semantics. -/
def normalDir (P0 P1 : FVec) : FVec :=
  fnormalize ⟨(fsubv P1 P0).y, fneg (fsubv P1 P0).x⟩

/-- The crossing time of lines 192-193 under IEEE semantics. -/
def crossTime (P0 P1 Bs Be : FVec) : FP :=
  fdiv (fsub (fdot (normalDir P0 P1) P0) (fdot (normalDir P0 P1) Bs))
    (fdot (normalDir P0 P1) (fsubv Be Bs))

/-- The crossing point of lines 197-198 under IEEE semantics. -/
def crossPoint (P0 P1 Bs Be : FVec) : FVec :=
  faddv (fscale (fsubv Be Bs) (crossTime P0 P1 Bs Be)) Bs

/-- The per-segment test of lines 160-210 under IEEE semantics: the same
guards as segTest, with every comparison false on NaN operands. -/
def segTest (P0 P1 Bs Be : FVec) : Option (FP × FVec × FVec) :=
  if feqb (fdot (normalDir P0 P1) (fsubv Be Bs)) (some 0) then none
  else if fleb (fdot (normalDir P0 P1) Bs) (fdot (normalDir P0 P1) P0)
      && fltb (fdot (normalDir P0 P1) Be) (fdot (normalDir P0 P1) P0) then none
  else if fleb (fdot (normalDir P0 P1) P0) (fdot (normalDir P0 P1) Bs)
      && fltb (fdot (normalDir P0 P1) P0) (fdot (normalDir P0 P1) Be) then none
  else if fltb (fdot (fsubv P1 P0) (fsubv (crossPoint P0 P1 Bs Be) P0)) (some 0) then none
  else if fltb (fdot (fsubv P0 P1) (fsubv (crossPoint P0 P1 Bs Be) P1)) (some 0) then none
  else some (crossTime P0 P1 Bs Be, crossPoint P0 P1 Bs Be, normalDir P0 P1)

/-- The reflection of lines 213-217 under IEEE semantics. -/
def reflect (i n : FVec) : FVec :=
  fsubv i (fscale (fscale n (fdot i n)) (some 2))

/-- The body state under IEEE semantics. -/
structure FBody where
  pos : FVec
  rot : FP
  oldPos : FVec
  vel : FVec

/-- The resolution of lines 213-231 under IEEE semantics. -/
def resolveBody (Be Bi n : FVec) (body : FBody) : FBody :=
  { body with
    pos := faddv Bi (reflect (fsubv Be Bi) n)
    rot := fangle (reflect (fsubv Be Bi) n)
    vel := fscale (fnormalize (reflect (fsubv Be Bi) n)) (flength body.vel) }

/-- One loop iteration of lines 157-235 under IEEE semantics. -/
def segStep (Bs Be : FVec) (body : FBody) (seg : FVec × FVec) : FBody :=
  match segTest seg.1 seg.2 Bs Be with
  | none => body
  | some (_, Bi, n) => resolveBody Be Bi n body

end FP

/-- A degenerate (zero-length) segment under IEEE semantics. -/
def degSegment : FP.FVec × FP.FVec := (FP.fv 2 3, FP.fv 2 3)

/-- The IEEE-semantics body moving from (0,-1) to (0,1) with velocity (0,2). -/
def degBody : FP.FBody := ⟨FP.fv 0 1, some 0, FP.fv 0 (-1), FP.fv 0 2⟩

end

section Lemmas

/-- Length of a concrete vector whose squared length has a known square root. -/
lemma Vector2DLength_eval (a b c : ℝ) (hc : 0 ≤ c) (h : a * a + b * b = c * c) :
    Vector2DLength (V a b) = c := by
  show Real.sqrt (a * a + b * b) = c
  rw [h]
  exact Real.sqrt_mul_self hc

/-- Normalization of a concrete vector whose length is known. -/
lemma Vector2DNormalize_eval (a b c : ℝ) (hc : 0 ≤ c) (h : a * a + b * b = c * c) :
    Vector2DNormalize (V a b) = V (a / c) (b / c) := by
  unfold Vector2DNormalize
  rw [Vector2DLength_eval a b c hc h]
  rfl

/-- The segment normal of a concrete segment, given the length of the raw
perpendicular. -/
lemma normalDir_eval (p q r s c : ℝ) (hc : 0 ≤ c)
    (h : (s - q) * (s - q) + (-(r - p)) * (-(r - p)) = c * c) :
    normalDir (V p q) (V r s) = V ((s - q) / c) ((-(r - p)) / c) := by
  show Vector2DNormalize (V (s - q) (-(r - p))) = _
  exact Vector2DNormalize_eval _ _ c hc h

/-- Inversion for a passing per-segment test: the returned normal, crossing
time and crossing point are the ones computed by the code, and the motion is
not parallel to the segment. -/
lemma segTest_some (P0 P1 Bs Be : Vector2D) (ti : ℝ) (Bi n : Vector2D)
    (h : segTest P0 P1 Bs Be = some (ti, Bi, n)) :
    n = normalDir P0 P1
    ∧ Vector2DDotProduct (normalDir P0 P1) (Vector2DSub Be Bs) ≠ 0
    ∧ ti = crossTime P0 P1 Bs Be
    ∧ Bi = crossPoint P0 P1 Bs Be := by
  unfold segTest at h
  split_ifs at h with h1 h2 h3 h4 h5
  simp only [Option.some.injEq, Prod.mk.injEq] at h
  exact ⟨h.2.2.symm, h1, h.1.symm, h.2.1.symm⟩

/-- Introduction for a passing per-segment test. -/
lemma segTest_eq_some_of (P0 P1 Bs Be : Vector2D) (ti : ℝ) (Bi n : Vector2D)
    (hn : normalDir P0 P1 = n)
    (h1 : Vector2DDotProduct n (Vector2DSub Be Bs) ≠ 0)
    (h2 : ¬(Vector2DDotProduct n Bs ≤ Vector2DDotProduct n P0
      ∧ Vector2DDotProduct n Be < Vector2DDotProduct n P0))
    (h3 : ¬(Vector2DDotProduct n Bs ≥ Vector2DDotProduct n P0
      ∧ Vector2DDotProduct n Be > Vector2DDotProduct n P0))
    (hBi : crossPoint P0 P1 Bs Be = Bi)
    (h4 : ¬(Vector2DDotProduct (Vector2DSub P1 P0) (Vector2DSub Bi P0) < 0))
    (h5 : ¬(Vector2DDotProduct (Vector2DSub P0 P1) (Vector2DSub Bi P1) < 0))
    (hti : crossTime P0 P1 Bs Be = ti) :
    segTest P0 P1 Bs Be = some (ti, Bi, n) := by
  subst hn
  subst hBi
  subst hti
  unfold segTest
  rw [if_neg h1, if_neg h2, if_neg h3, if_neg h4, if_neg h5]

/-- The zero vector normalizes to the zero vector in this embedding, because
real division by zero yields zero. -/
lemma Vector2DNormalize_zero : Vector2DNormalize (V 0 0) = V 0 0 := by
  simp [Vector2DNormalize, Vector2DLength, V]

/-- A unit-length result of normalizing a nonzero concrete vector: the dot
product with itself is one. -/
lemma dot_normalize_self (a b : ℝ) (h : ¬(a = 0 ∧ b = 0)) :
    Vector2DDotProduct (Vector2DNormalize (V a b)) (Vector2DNormalize (V a b)) = 1 := by
  have hs : 0 < a * a + b * b := by
    rcases not_and_or.mp h with ha | hb
    · nlinarith [mul_self_pos.mpr ha, mul_self_nonneg b]
    · nlinarith [mul_self_pos.mpr hb, mul_self_nonneg a]
  have hL2 : Real.sqrt (a * a + b * b) * Real.sqrt (a * a + b * b) = a * a + b * b :=
    Real.mul_self_sqrt hs.le
  simp only [Vector2DNormalize, Vector2DDotProduct, Vector2DLength, V]
  rw [div_mul_div_comm, div_mul_div_comm, div_add_div_same, hL2]
  exact div_self (ne_of_gt hs)

/-- Normalizing a nonzero concrete vector yields a vector of length one. -/
lemma length_normalize (a b : ℝ) (h : ¬(a = 0 ∧ b = 0)) :
    Vector2DLength (Vector2DNormalize (V a b)) = 1 := by
  have hd : (Vector2DNormalize (V a b)).x * (Vector2DNormalize (V a b)).x
      + (Vector2DNormalize (V a b)).y * (Vector2DNormalize (V a b)).y = 1 :=
    dot_normalize_self a b h
  show Real.sqrt ((Vector2DNormalize (V a b)).x * (Vector2DNormalize (V a b)).x
    + (Vector2DNormalize (V a b)).y * (Vector2DNormalize (V a b)).y) = 1
  rw [hd]
  exact Real.sqrt_one

/-- Scaling multiplies the length by the absolute value of the factor. -/
lemma length_scale (v : Vector2D) (c : ℝ) :
    Vector2DLength (Vector2DScale v c) = |c| * Vector2DLength v := by
  simp only [Vector2DScale, Vector2DLength]
  rw [show v.x * c * (v.x * c) + v.y * c * (v.y * c)
    = c * c * (v.x * v.x + v.y * v.y) by ring]
  rw [Real.sqrt_mul (mul_self_nonneg c), Real.sqrt_mul_self_eq_abs]

/-- Lengths are nonnegative. -/
lemma length_nonneg (v : Vector2D) : 0 ≤ Vector2DLength v := Real.sqrt_nonneg _

/-- Normalizing a nonzero vector and rescaling by a nonnegative factor yields
a vector of length that factor. -/
lemma length_scale_normalize (r : Vector2D) (c : ℝ) (hr : r ≠ V 0 0) (hc : 0 ≤ c) :
    Vector2DLength (Vector2DScale (Vector2DNormalize r) c) = c := by
  have h : ¬(r.x = 0 ∧ r.y = 0) := by
    rintro ⟨hx, hy⟩
    apply hr
    cases r
    simp_all [V]
  rw [length_scale]
  rw [show Vector2DNormalize r = Vector2DNormalize (V r.x r.y) from by cases r; rfl]
  rw [length_normalize r.x r.y h, mul_one, abs_of_nonneg hc]

/-- The computed segment normal is orthogonal to the segment direction. -/
lemma dot_normalDir_tangent (P0 P1 : Vector2D) :
    Vector2DDotProduct (normalDir P0 P1) (Vector2DSub P1 P0) = 0 := by
  simp only [normalDir, Vector2DNormalize, Vector2DDotProduct, Vector2DSub,
    Vector2DLength]
  ring

/-- For a degenerate segment the computed normal is the zero vector. -/
lemma normalDir_degenerate (P0 P1 : Vector2D)
    (hx : (Vector2DSub P1 P0).x = 0) (hy : (Vector2DSub P1 P0).y = 0) :
    normalDir P0 P1 = V 0 0 := by
  show Vector2DNormalize (V (Vector2DSub P1 P0).y (-(Vector2DSub P1 P0).x)) = V 0 0
  rw [hx, hy]
  rw [show V 0 (-(0 : ℝ)) = V 0 0 from by norm_num [V]]
  exact Vector2DNormalize_zero

/-- If the per-segment test gets past the parallel guard, then the segment is
not degenerate: its raw perpendicular has a nonzero component. -/
lemma nondegenerate_of_nonparallel (P0 P1 w : Vector2D)
    (h : Vector2DDotProduct (normalDir P0 P1) w ≠ 0) :
    ¬((Vector2DSub P1 P0).y = 0 ∧ -(Vector2DSub P1 P0).x = 0) := by
  rintro ⟨hy, hx⟩
  apply h
  have hdeg : normalDir P0 P1 = V 0 0 := by
    apply normalDir_degenerate
    · exact neg_eq_zero.mp hx
    · exact hy
  rw [hdeg]
  simp [Vector2DDotProduct, V]

/-- The computed segment normal of a nondegenerate segment is a unit vector. -/
lemma normalDir_unit (P0 P1 w : Vector2D)
    (h : Vector2DDotProduct (normalDir P0 P1) w ≠ 0) :
    Vector2DDotProduct (normalDir P0 P1) (normalDir P0 P1) = 1 := by
  have hd := nondegenerate_of_nonparallel P0 P1 w h
  show Vector2DDotProduct
    (Vector2DNormalize (V (Vector2DSub P1 P0).y (-(Vector2DSub P1 P0).x)))
    (Vector2DNormalize (V (Vector2DSub P1 P0).y (-(Vector2DSub P1 P0).x))) = 1
  exact dot_normalize_self _ _ hd

/-- Reflection across a unit normal flips the normal component of the dot
product. -/
lemma reflect_dot_normal (i n : Vector2D) (hu : Vector2DDotProduct n n = 1) :
    Vector2DDotProduct (reflect i n) n = -(Vector2DDotProduct i n) := by
  simp only [reflect, Vector2DSub, Vector2DScale, Vector2DDotProduct] at *
  linear_combination (-2 * (i.x * n.x + i.y * n.y)) * hu

/-- Reflection across a normal preserves the dot product with any vector
orthogonal to the normal. -/
lemma reflect_dot_tangent (i n t : Vector2D) (ho : Vector2DDotProduct n t = 0) :
    Vector2DDotProduct (reflect i n) t = Vector2DDotProduct i t := by
  simp only [reflect, Vector2DSub, Vector2DScale, Vector2DDotProduct] at *
  linear_combination (-2 * (i.x * n.x + i.y * n.y)) * ho

/-- The concrete crossing used by several witnesses: the segment from (-1,0)
to (1,0) against the motion from (0,-1) to (0,1) registers a crossing at
(0,0) at time 1/2 with normal (0,-1). -/
lemma demo_segTest :
    segTest (V (-1) 0) (V 1 0) (V 0 (-1)) (V 0 1) = some (1 / 2, V 0 0, V 0 (-1)) := by
  have hn := normalDir_eval (-1) 0 1 0 2 (by norm_num) (by norm_num)
  norm_num at hn
  have hBi : crossPoint (V (-1) 0) (V 1 0) (V 0 (-1)) (V 0 1) = V 0 0 := by
    unfold crossPoint crossTime
    rw [hn]
    norm_num [Vector2DDotProduct, Vector2DSub, Vector2DScaleAdd, Vector2DScale,
      Vector2DAdd, V]
  have hti : crossTime (V (-1) 0) (V 1 0) (V 0 (-1)) (V 0 1) = 1 / 2 := by
    unfold crossTime
    rw [hn]
    norm_num [Vector2DDotProduct, Vector2DSub, V]
  exact segTest_eq_some_of _ _ _ _ _ _ _ hn
    (by rw [hn] at *; norm_num [Vector2DDotProduct, Vector2DSub, V])
    (by norm_num [Vector2DDotProduct, Vector2DSub, V])
    (by norm_num [Vector2DDotProduct, Vector2DSub, V])
    hBi
    (by norm_num [Vector2DDotProduct, Vector2DSub, V])
    (by norm_num [Vector2DDotProduct, Vector2DSub, V])
    hti

/-- Splitting the segment loop around a distinguished segment. -/
lemma runSegments_middle (Bs Be : Vector2D) (pre post : List ColliderLineSegment)
    (seg : ColliderLineSegment) (body : Body) :
    runSegments Bs Be (pre ++ seg :: post) body
      = runSegments Bs Be post (segStep Bs Be (runSegments Bs Be pre body) seg) := by
  simp [runSegments, List.foldl_append]

/-- Segments that register no crossing leave the body untouched. -/
lemma runSegments_none (Bs Be : Vector2D) (l : List ColliderLineSegment) (body : Body)
    (h : ∀ s ∈ l, segTest s.point0 s.point1 Bs Be = none) :
    runSegments Bs Be l body = body := by
  induction l generalizing body with
  | nil => rfl
  | cons s l ih =>
    have hs : segStep Bs Be body s = body := by
      simp [segStep, h s (List.mem_cons_self s l)]
    show runSegments Bs Be l (segStep Bs Be body s) = body
    rw [hs]
    exact ih body fun t ht => h t (List.mem_cons_of_mem s ht)

/-- One loop iteration preserves the speed stored in the physics state, as
long as a registered crossing does not have a degenerate reflected vector. -/
lemma velLength_segStep (Bs Be : Vector2D) (body : Body) (seg : ColliderLineSegment)
    (h : ∀ (ti : ℝ) (Bi n : Vector2D),
      segTest seg.point0 seg.point1 Bs Be = some (ti, Bi, n)
      → reflect (Vector2DSub Be Bi) n ≠ V 0 0) :
    Vector2DLength (segStep Bs Be body seg).vel = Vector2DLength body.vel := by
  rcases heq : segTest seg.point0 seg.point1 Bs Be with - | ⟨ti, Bi, n⟩
  · simp [segStep, heq]
  · have hstep : segStep Bs Be body seg = resolveBody Be Bi n body := by
      simp [segStep, heq]
    rw [hstep]
    exact length_scale_normalize _ _ (h ti Bi n heq) (length_nonneg _)

/-- The loop preserves the speed stored in the physics state, as long as no
registered crossing has a degenerate reflected vector. -/
lemma velLength_runSegments (Bs Be : Vector2D) (l : List ColliderLineSegment) (body : Body)
    (h : ∀ s ∈ l, ∀ (ti : ℝ) (Bi n : Vector2D),
      segTest s.point0 s.point1 Bs Be = some (ti, Bi, n)
      → reflect (Vector2DSub Be Bi) n ≠ V 0 0) :
    Vector2DLength (runSegments Bs Be l body).vel = Vector2DLength body.vel := by
  induction l generalizing body with
  | nil => rfl
  | cons s l ih =>
    show Vector2DLength (runSegments Bs Be l (segStep Bs Be body s)).vel = _
    rw [ih (segStep Bs Be body s) fun t ht => h t (List.mem_cons_of_mem s ht)]
    exact velLength_segStep Bs Be body s (h s (List.mem_cons_self s l))

/-- The second concrete crossing used by witnesses: the segment from
(-2,1/2) to (2,1/2) against the motion from (0,-1) to (0,1) registers a
crossing at (0,1/2) at time 3/4 with normal (0,-1). -/
lemma demo_segTestB :
    segTest (V (-2) (1 / 2)) (V 2 (1 / 2)) (V 0 (-1)) (V 0 1)
      = some (3 / 4, V 0 (1 / 2), V 0 (-1)) := by
  have hn := normalDir_eval (-2) (1 / 2) 2 (1 / 2) 4 (by norm_num) (by norm_num)
  norm_num at hn
  have hBi : crossPoint (V (-2) (1 / 2)) (V 2 (1 / 2)) (V 0 (-1)) (V 0 1) = V 0 (1 / 2) := by
    unfold crossPoint crossTime
    rw [hn]
    norm_num [Vector2DDotProduct, Vector2DSub, Vector2DScaleAdd, Vector2DScale,
      Vector2DAdd, V]
  have hti : crossTime (V (-2) (1 / 2)) (V 2 (1 / 2)) (V 0 (-1)) (V 0 1) = 3 / 4 := by
    unfold crossTime
    rw [hn]
    norm_num [Vector2DDotProduct, Vector2DSub, V]
  exact segTest_eq_some_of _ _ _ _ _ _ _ hn
    (by rw [hn] at *; norm_num [Vector2DDotProduct, Vector2DSub, V])
    (by norm_num [Vector2DDotProduct, Vector2DSub, V])
    (by norm_num [Vector2DDotProduct, Vector2DSub, V])
    hBi
    (by norm_num [Vector2DDotProduct, Vector2DSub, V])
    (by norm_num [Vector2DDotProduct, Vector2DSub, V])
    hti

end Lemmas

section Claims

/-- C9: a motion whose vector is orthogonal to the segment normal (exactly
parallel motion) never registers a crossing for that segment, regardless of
the positions involved: the first guard of the per-segment test skips it. -/
theorem claim9_parallel_miss (P0 P1 Bs Be : Vector2D)
    (h : Vector2DDotProduct (normalDir P0 P1) (Vector2DSub Be Bs) = 0) :
    segTest P0 P1 Bs Be = none := by
  unfold segTest
  rw [if_pos h]

/-- Witness for C9: the segment from (0,0) to (1,0) and the parallel motion
from (0,1) to (5,1) register no crossing. -/
theorem claim9_witness : segTest (V 0 0) (V 1 0) (V 0 1) (V 5 1) = none := by
  apply claim9_parallel_miss
  have hn := normalDir_eval 0 0 1 0 1 (by norm_num) (by norm_num)
  norm_num at hn
  rw [hn]
  norm_num [Vector2DDotProduct, Vector2DSub, V]

/-- C8: whenever the crossing point with the infinite line fails one of the
two finite-segment endpoint checks (a negative dot product), the segment
registers no crossing. -/
theorem claim8_bounded_intersection (P0 P1 Bs Be : Vector2D)
    (h : Vector2DDotProduct (Vector2DSub P1 P0)
        (Vector2DSub (crossPoint P0 P1 Bs Be) P0) < 0
      ∨ Vector2DDotProduct (Vector2DSub P0 P1)
        (Vector2DSub (crossPoint P0 P1 Bs Be) P1) < 0) :
    segTest P0 P1 Bs Be = none := by
  unfold segTest
  split_ifs with h1 h2 h3 h4 h5
  · rfl
  · rfl
  · rfl
  · rfl
  · rfl
  · rcases h with h | h
    · exact absurd h h4
    · exact absurd h h5

/-- Witness for C8: the segment from (0,0) to (1,0) against the motion from
(5,-1) to (5,1), which crosses the infinite line at (5,0), outside the
segment, registers no crossing. -/
theorem claim8_witness : segTest (V 0 0) (V 1 0) (V 5 (-1)) (V 5 1) = none := by
  have hn := normalDir_eval 0 0 1 0 1 (by norm_num) (by norm_num)
  norm_num at hn
  have hBi : crossPoint (V 0 0) (V 1 0) (V 5 (-1)) (V 5 1) = V 5 0 := by
    unfold crossPoint crossTime
    rw [hn]
    norm_num [Vector2DDotProduct, Vector2DSub, Vector2DScaleAdd, Vector2DScale,
      Vector2DAdd, V]
  apply claim8_bounded_intersection
  right
  rw [hBi]
  norm_num [Vector2DDotProduct, Vector2DSub, V]

/-- C10: ColliderLineAddLineSegment with a null collider pointer or a null
point pointer is a silent no-op: the collider is unchanged in count and
contents, and the function (whose C return type is void) reports nothing. -/
theorem claim10_null_noop (c : Option ColliderLine) (p0 p1 : Option Vector2D)
    (h : c = none ∨ p0 = none ∨ p1 = none) :
    ColliderLineAddLineSegment c p0 p1 = c := by
  rcases h with h | h | h
  · subst h
    cases p0 <;> cases p1 <;> rfl
  · subst h
    cases c <;> cases p1 <;> rfl
  · subst h
    cases c <;> cases p0 <;> rfl

/-- Witness for C10: a null start-point pointer leaves a concrete store
untouched. -/
theorem claim10_witness :
    ColliderLineAddLineSegment (some emptyStore) none (some (V 0 0))
      = some emptyStore :=
  claim10_null_noop (some emptyStore) none (some (V 0 0)) (Or.inr (Or.inl rfl))

/-- C2 (code behaviour at the failing input): on a store already holding
cLineSegmentMax = 50 segments, ColliderLineAddLineSegment does not reject
the append: it stores the new segment (in C, an out-of-bounds write) and
increments the count to 51, beyond the capacity, so the store is not left
unchanged and no error is surfaced. -/
theorem claim2_append_at_capacity_not_rejected :
    ColliderLineAddLineSegment (some fullStore) (some (V 2 3)) (some (V 4 5))
      = some { fullStore with
          lineCount := cLineSegmentMax + 1
          lineSegments := fullStore.lineSegments ++ [⟨V 2 3, V 4 5⟩] }
    ∧ fullStore.lineCount = cLineSegmentMax
    ∧ cLineSegmentMax + 1 ≠ fullStore.lineCount := by
  refine ⟨rfl, rfl, by norm_num [cLineSegmentMax, fullStore]⟩

/-- C1 (code behaviour): ColliderLineIsCollidingWithCircle returns false on
every input, even though a concrete line-collider/circle-body input exists
whose per-segment test passes (segment from (-1,0) to (1,0), motion from
(0,-1) to (0,1), crossing at (0,0) at time 1/2 with normal (0,-1)). -/
theorem claim1_code_returns_false :
    (∀ (collider : ColliderLine) (other : Collider),
      (ColliderLineIsCollidingWithCircle collider other).1 = false)
    ∧ segTest (V (-1) 0) (V 1 0) (V 0 (-1)) (V 0 1)
        = some (1 / 2, V 0 0, V 0 (-1)) := by
  constructor
  · intro collider other
    unfold ColliderLineIsCollidingWithCircle
    split_ifs <;> rfl
  · exact demo_segTest

/-- C4: for every segment whose per-segment test passes, the reflected
vector r = i - 2*n*dot(i, n) of the incoming vector i = Be - Bi satisfies
the specular reflection law (its dot product with the normal is negated and
its dot product with the segment tangent direction is preserved), and the
resolved body receives position Bi + r and rotation equal to the angle of
r. -/
theorem claim4_reflection_law (Bs Be : Vector2D) (seg : ColliderLineSegment)
    (body : Body) (ti : ℝ) (Bi n : Vector2D)
    (h : segTest seg.point0 seg.point1 Bs Be = some (ti, Bi, n)) :
    Vector2DDotProduct (reflect (Vector2DSub Be Bi) n) n
        = -(Vector2DDotProduct (Vector2DSub Be Bi) n)
    ∧ Vector2DDotProduct (reflect (Vector2DSub Be Bi) n)
          (Vector2DSub seg.point1 seg.point0)
        = Vector2DDotProduct (Vector2DSub Be Bi)
          (Vector2DSub seg.point1 seg.point0)
    ∧ (segStep Bs Be body seg).pos = Vector2DAdd Bi (reflect (Vector2DSub Be Bi) n)
    ∧ (segStep Bs Be body seg).rot = Vector2DToAngleRad (reflect (Vector2DSub Be Bi) n) := by
  obtain ⟨hn, hnp, hti, hBi⟩ := segTest_some _ _ _ _ _ _ _ h
  subst hn
  have hu := normalDir_unit seg.point0 seg.point1 (Vector2DSub Be Bs) hnp
  refine ⟨reflect_dot_normal _ _ hu, ?_, ?_, ?_⟩
  · exact reflect_dot_tangent _ _ _ (dot_normalDir_tangent seg.point0 seg.point1)
  · simp [segStep, h, resolveBody]
  · simp [segStep, h, resolveBody]

/-- Witness for C4: the concrete crossing of the segment from (-1,0) to
(1,0) by the motion from (0,-1) to (0,1). -/
theorem claim4_witness :
    Vector2DDotProduct (reflect (Vector2DSub (V 0 1) (V 0 0)) (V 0 (-1))) (V 0 (-1))
        = -(Vector2DDotProduct (Vector2DSub (V 0 1) (V 0 0)) (V 0 (-1)))
    ∧ Vector2DDotProduct (reflect (Vector2DSub (V 0 1) (V 0 0)) (V 0 (-1)))
          (Vector2DSub demoSeg2.point1 demoSeg2.point0)
        = Vector2DDotProduct (Vector2DSub (V 0 1) (V 0 0))
          (Vector2DSub demoSeg2.point1 demoSeg2.point0)
    ∧ (segStep (V 0 (-1)) (V 0 1) demoBody demoSeg2).pos
        = Vector2DAdd (V 0 0) (reflect (Vector2DSub (V 0 1) (V 0 0)) (V 0 (-1)))
    ∧ (segStep (V 0 (-1)) (V 0 1) demoBody demoSeg2).rot
        = Vector2DToAngleRad (reflect (Vector2DSub (V 0 1) (V 0 0)) (V 0 (-1))) :=
  claim4_reflection_law (V 0 (-1)) (V 0 1) demoSeg2 demoBody (1 / 2) (V 0 0)
    (V 0 (-1)) demo_segTest

/-- C5: for every confirmed crossing whose reflected vector r is nonzero,
the resolved velocity is normalize(r) scaled by the speed read from the
physics state immediately before resolution, and its magnitude equals that
speed: speed is preserved. -/
theorem claim5_speed_preserved (Bs Be : Vector2D) (seg : ColliderLineSegment)
    (body : Body) (ti : ℝ) (Bi n : Vector2D)
    (h : segTest seg.point0 seg.point1 Bs Be = some (ti, Bi, n))
    (hr : reflect (Vector2DSub Be Bi) n ≠ V 0 0) :
    (resolveBody Be Bi n body).vel
        = Vector2DScale (Vector2DNormalize (reflect (Vector2DSub Be Bi) n))
            (Vector2DLength body.vel)
    ∧ Vector2DLength ((resolveBody Be Bi n body).vel) = Vector2DLength body.vel := by
  constructor
  · rfl
  · show Vector2DLength (Vector2DScale (Vector2DNormalize (reflect (Vector2DSub Be Bi) n))
        (Vector2DLength body.vel)) = Vector2DLength body.vel
    exact length_scale_normalize _ _ hr (length_nonneg _)

/-- Witness for C5: at the concrete crossing the reflected vector is (0,-1)
and the body's speed 2 is preserved. -/
theorem claim5_witness :
    (resolveBody (V 0 1) (V 0 0) (V 0 (-1)) demoBody).vel
        = Vector2DScale (Vector2DNormalize (reflect (Vector2DSub (V 0 1) (V 0 0)) (V 0 (-1))))
            (Vector2DLength demoBody.vel)
    ∧ Vector2DLength ((resolveBody (V 0 1) (V 0 0) (V 0 (-1)) demoBody).vel)
        = Vector2DLength demoBody.vel :=
  claim5_speed_preserved (V 0 (-1)) (V 0 1) demoSeg2 demoBody (1 / 2) (V 0 0)
    (V 0 (-1)) demo_segTest
    (by norm_num [reflect, Vector2DSub, Vector2DScale, Vector2DDotProduct, V])

/-- C3: when the scanned segment list splits as pre ++ seg :: post where seg
passes its per-segment test, every segment after seg fails its test, and no
passing segment in pre has a degenerate reflected vector, then the body
state produced by ColliderLineIsCollidingWithCircle is exactly the
resolution of seg (the last passing segment, in ascending index order)
computed from the original captured motion: position Bi + r, rotation the
angle of r, and velocity normalize(r) scaled by the original speed — the
earlier passing segments' results are discarded and no early exit occurs. -/
theorem claim3_last_passing_segment_wins
    (collider : ColliderLine) (other : Collider)
    (pre post : List ColliderLineSegment) (seg : ColliderLineSegment)
    (ti : ℝ) (Bi n : Vector2D)
    (htype : collider.baseType = ColliderType.ColliderTypeLine)
    (hctype : other.ctype = ColliderType.ColliderTypeCircle)
    (hsplit : collider.lineSegments.take collider.lineCount = pre ++ seg :: post)
    (hpass : segTest seg.point0 seg.point1 other.parent.oldPos other.parent.pos
      = some (ti, Bi, n))
    (hpost : ∀ s ∈ post,
      segTest s.point0 s.point1 other.parent.oldPos other.parent.pos = none)
    (hpre : ∀ s ∈ pre, ∀ (ti' : ℝ) (Bi' n' : Vector2D),
      segTest s.point0 s.point1 other.parent.oldPos other.parent.pos
        = some (ti', Bi', n')
      → reflect (Vector2DSub other.parent.pos Bi') n' ≠ V 0 0) :
    (ColliderLineIsCollidingWithCircle collider other).2.pos
        = Vector2DAdd Bi (reflect (Vector2DSub other.parent.pos Bi) n)
    ∧ (ColliderLineIsCollidingWithCircle collider other).2.rot
        = Vector2DToAngleRad (reflect (Vector2DSub other.parent.pos Bi) n)
    ∧ (ColliderLineIsCollidingWithCircle collider other).2.vel
        = Vector2DScale
            (Vector2DNormalize (reflect (Vector2DSub other.parent.pos Bi) n))
            (Vector2DLength other.parent.vel) := by
  have hmain : (ColliderLineIsCollidingWithCircle collider other).2
      = runSegments other.parent.oldPos other.parent.pos
          (collider.lineSegments.take collider.lineCount) other.parent := by
    unfold ColliderLineIsCollidingWithCircle
    rw [if_pos ⟨htype, hctype⟩]
  have hstep : segStep other.parent.oldPos other.parent.pos
      (runSegments other.parent.oldPos other.parent.pos pre other.parent) seg
      = resolveBody other.parent.pos Bi n
          (runSegments other.parent.oldPos other.parent.pos pre other.parent) := by
    simp [segStep, hpass]
  have hrun : (ColliderLineIsCollidingWithCircle collider other).2
      = resolveBody other.parent.pos Bi n
          (runSegments other.parent.oldPos other.parent.pos pre other.parent) := by
    rw [hmain, hsplit, runSegments_middle, hstep,
      runSegments_none _ _ _ _ hpost]
  refine ⟨?_, ?_, ?_⟩
  · rw [hrun]
    rfl
  · rw [hrun]
    rfl
  · rw [hrun]
    show Vector2DScale _ (Vector2DLength
      (runSegments other.parent.oldPos other.parent.pos pre other.parent).vel) = _
    rw [velLength_runSegments _ _ _ _ hpre]

/-- Witness for C3: a store holding the segment from (-1,0) to (1,0) and then
the segment from (-2,1/2) to (2,1/2), both crossed by the motion from (0,-1)
to (0,1); the final body state is the resolution of the second (later
indexed) segment. -/
theorem claim3_witness :
    (ColliderLineIsCollidingWithCircle demoCollider demoOther).2.pos
        = Vector2DAdd (V 0 (1 / 2))
            (reflect (Vector2DSub demoOther.parent.pos (V 0 (1 / 2))) (V 0 (-1)))
    ∧ (ColliderLineIsCollidingWithCircle demoCollider demoOther).2.rot
        = Vector2DToAngleRad
            (reflect (Vector2DSub demoOther.parent.pos (V 0 (1 / 2))) (V 0 (-1)))
    ∧ (ColliderLineIsCollidingWithCircle demoCollider demoOther).2.vel
        = Vector2DScale
            (Vector2DNormalize
              (reflect (Vector2DSub demoOther.parent.pos (V 0 (1 / 2))) (V 0 (-1))))
            (Vector2DLength demoOther.parent.vel) := by
  have hpass : segTest demoSegB.point0 demoSegB.point1 demoOther.parent.oldPos
      demoOther.parent.pos = some (3 / 4, V 0 (1 / 2), V 0 (-1)) := demo_segTestB
  have hpre : ∀ s ∈ [demoSeg2], ∀ (ti' : ℝ) (Bi' n' : Vector2D),
      segTest s.point0 s.point1 demoOther.parent.oldPos demoOther.parent.pos
        = some (ti', Bi', n')
      → reflect (Vector2DSub demoOther.parent.pos Bi') n' ≠ V 0 0 := by
    intro s hs ti' Bi' n' hsome
    have hseq : s = demoSeg2 := by simpa using hs
    subst hseq
    have hdemo : segTest demoSeg2.point0 demoSeg2.point1 demoOther.parent.oldPos
        demoOther.parent.pos = some (1 / 2, V 0 0, V 0 (-1)) := demo_segTest
    rw [hdemo] at hsome
    simp only [Option.some.injEq, Prod.mk.injEq] at hsome
    obtain ⟨-, hBi, hn⟩ := hsome
    subst hBi
    subst hn
    norm_num [reflect, Vector2DSub, Vector2DScale, Vector2DDotProduct, V,
      demoOther, demoBody]
  exact claim3_last_passing_segment_wins demoCollider demoOther
    [demoSeg2] [] demoSegB (3 / 4) (V 0 (1 / 2)) (V 0 (-1))
    rfl rfl rfl hpass (by simp) hpre

/-- C6 (counterexample to the claim as stated): for the segment from (-1,0)
to (1,0) and the motion from (0,0) to (0,1), the motion is not parallel to
the segment's line, the previous position lies exactly on the line
(dot(n,Bs) = dot(n,P0)) and the current position lies strictly off it, yet
the side-of-line guards fire and the per-segment test registers no
crossing — the crossing computation does not proceed. -/
theorem claim6_counterexample :
    Vector2DDotProduct (normalDir (V (-1) 0) (V 1 0)) (Vector2DSub (V 0 1) (V 0 0)) ≠ 0
    ∧ Vector2DDotProduct (normalDir (V (-1) 0) (V 1 0)) (V 0 0)
        = Vector2DDotProduct (normalDir (V (-1) 0) (V 1 0)) (V (-1) 0)
    ∧ Vector2DDotProduct (normalDir (V (-1) 0) (V 1 0)) (V 0 1)
        ≠ Vector2DDotProduct (normalDir (V (-1) 0) (V 1 0)) (V (-1) 0)
    ∧ sideSkip (normalDir (V (-1) 0) (V 1 0)) (V (-1) 0) (V 0 0) (V 0 1)
    ∧ segTest (V (-1) 0) (V 1 0) (V 0 0) (V 0 1) = none := by
  have hn := normalDir_eval (-1) 0 1 0 2 (by norm_num) (by norm_num)
  norm_num at hn
  refine ⟨?_, ?_, ?_, ?_, ?_⟩
  · rw [hn]
    norm_num [Vector2DDotProduct, Vector2DSub, V]
  · rw [hn]
    norm_num [Vector2DDotProduct, V]
  · rw [hn]
    norm_num [Vector2DDotProduct, V]
  · unfold sideSkip
    rw [hn]
    left
    norm_num [Vector2DDotProduct, V]
  · unfold segTest
    rw [hn]
    rw [if_neg (by norm_num [Vector2DDotProduct, Vector2DSub, V]),
      if_pos (by norm_num [Vector2DDotProduct, V] :
        Vector2DDotProduct (V 0 (-1)) (V 0 0) ≤ Vector2DDotProduct (V 0 (-1)) (V (-1) 0)
        ∧ Vector2DDotProduct (V 0 (-1)) (V 0 1) < Vector2DDotProduct (V 0 (-1)) (V (-1) 0))]

/-- C6 (amended): the side-of-line guards skip a segment exactly when the
current position lies strictly on one side of the segment's infinite line
and the previous position does not lie strictly on the opposite side; in
particular a motion starting exactly on the line and ending strictly off
it is skipped. -/
theorem claim6_side_skip_characterization (P0 P1 Bs Be : Vector2D) :
    sideSkip (normalDir P0 P1) P0 Bs Be
      ↔ ((Vector2DDotProduct (normalDir P0 P1) Be < Vector2DDotProduct (normalDir P0 P1) P0
          ∧ ¬(Vector2DDotProduct (normalDir P0 P1) P0 < Vector2DDotProduct (normalDir P0 P1) Bs))
        ∨ (Vector2DDotProduct (normalDir P0 P1) P0 < Vector2DDotProduct (normalDir P0 P1) Be
          ∧ ¬(Vector2DDotProduct (normalDir P0 P1) Bs < Vector2DDotProduct (normalDir P0 P1) P0))) := by
  unfold sideSkip
  simp only [ge_iff_le, gt_iff_lt, not_lt]
  tauto

/-- C7 (code behaviour at the failing input): under IEEE semantics the
detector does not special-case the zero-length segment (2,3)-(2,3): its
per-segment test against the motion from (0,-1) to (0,1) registers a
crossing record rather than skipping, because every comparison on the NaN
normal is false, and the resolution writes NaN into the body's transform
position, rotation and velocity, which were finite before. -/
theorem claim7_nan_propagates :
    FP.segTest degSegment.1 degSegment.2 degBody.oldPos degBody.pos ≠ none
    ∧ (FP.segStep degBody.oldPos degBody.pos degBody degSegment).pos.x = none
    ∧ (FP.segStep degBody.oldPos degBody.pos degBody degSegment).rot = none
    ∧ (FP.segStep degBody.oldPos degBody.pos degBody degSegment).vel.x = none
    ∧ degBody.pos.x ≠ none := by
  have hn : FP.normalDir (FP.fv 2 3) (FP.fv 2 3) = ⟨none, none⟩ := by
    simp [FP.normalDir, FP.fnormalize, FP.fsubv, FP.fsub, FP.fneg, FP.flength,
      FP.fsqrt, FP.fadd, FP.fmul, FP.fdiv, FP.fv, Option.bind]
  have hdL : ∀ w : FP.FVec, FP.fdot ⟨none, none⟩ w = none := by
    intro w
    rfl
  have hti : FP.crossTime (FP.fv 2 3) (FP.fv 2 3) (FP.fv 0 (-1)) (FP.fv 0 1) = none := by
    unfold FP.crossTime
    rw [hn, hdL, hdL, hdL]
    rfl
  have hBi : FP.crossPoint (FP.fv 2 3) (FP.fv 2 3) (FP.fv 0 (-1)) (FP.fv 0 1)
      = ⟨none, none⟩ := by
    unfold FP.crossPoint
    rw [hti]
    rfl
  have htest : FP.segTest (FP.fv 2 3) (FP.fv 2 3) (FP.fv 0 (-1)) (FP.fv 0 1)
      = some (none, ⟨none, none⟩, ⟨none, none⟩) := by
    unfold FP.segTest
    rw [hn, hBi, hti, hdL, hdL, hdL, hdL]
    rfl
  have hstep : FP.segStep degBody.oldPos degBody.pos degBody degSegment
      = FP.resolveBody degBody.pos ⟨none, none⟩ ⟨none, none⟩ degBody := by
    show FP.segStep (FP.fv 0 (-1)) (FP.fv 0 1) degBody (FP.fv 2 3, FP.fv 2 3)
      = FP.resolveBody degBody.pos ⟨none, none⟩ ⟨none, none⟩ degBody
    unfold FP.segStep
    rw [htest]
    rfl
  refine ⟨?_, ?_, ?_, ?_, ?_⟩
  · show FP.segTest (FP.fv 2 3) (FP.fv 2 3) (FP.fv 0 (-1)) (FP.fv 0 1) ≠ none
    rw [htest]
    simp
  · rw [hstep]
    rfl
  · rw [hstep]
    rfl
  · rw [hstep]
    rfl
  · simp [degBody, FP.fv]

end Claims
